import Mathlib

/-!
Shallow embedding of the `qagent` test-generation core
(`src/generators/GuiTestGenerator.ts`, `src/generators/ApiTestGenerator.ts`,
`src/quality/TestQualityAnalyzer.ts`) together with proofs about the
validation, id-uniquification, prioritization, quality-scoring and
fallback-generation behaviour.

Modelling conventions (JavaScript semantics made explicit):
* string fields that may be absent are modelled as `String` where `""`
  stands for "absent or empty" (both are JS-falsy, and the code only ever
  tests such fields for truthiness);
* numeric fields that may be absent are modelled as `Option Nat`
  (`jsOrNat` mirrors `x || d`, under which an explicit `0` also selects
  the default, exactly as in JS);
* `x || d` on booleans is `jsOrBool`, on strings `jsOrStr`;
* JSON arrays that the code checks with `Array.isArray` are modelled as
  `Option (List _)`: `none` stands for an absent / non-array value
  (a present array is always truthy in JS, so `!x || !Array.isArray(x)`
  rejects exactly the `none` case);
* object-valued fields that the code only ever tests for truthiness are
  modelled as `Bool`;
* `Array.prototype.sort` (stable since ES2019) with a comparator `c` is
  modelled as the stable `List.insertionSort` by the relation
  `c a b ≤ 0`.
-/

/-- JS `v || d` for an optional number: `undefined` and `0` are falsy. -/
def jsOrNat (v : Option Nat) (d : Nat) : Nat :=
  match v with
  | some n => if n = 0 then d else n
  | none => d

/-- JS `v || d` for a string (`""` stands for absent or empty; both falsy). -/
def jsOrStr (v d : String) : String :=
  if v = "" then d else v

/-- JS `v || d` for an optional boolean (`false` is falsy, so it yields `d`). -/
def jsOrBool (v : Option Bool) (d : Bool) : Bool :=
  match v with
  | some b => b || d
  | none => d

/-- `String.prototype.startsWith` (byte-position-free model on char lists). -/
def strStartsWith (s p : String) : Bool :=
  p.data.isPrefixOf s.data

/-- Whether `needle` occurs as a contiguous run inside `hay`. -/
def containsSub (hay needle : List Char) : Bool :=
  needle.isPrefixOf hay ||
    match hay with
    | [] => false
    | _ :: t => containsSub t needle

/-- `String.prototype.includes`. -/
def strIncludes (s sub : String) : Bool :=
  containsSub s.data sub.data

/-- `String.prototype.toUpperCase` (ASCII, which covers every use site). -/
def strUpper (s : String) : String :=
  ⟨s.data.map Char.toUpper⟩

/-- `String.prototype.toLowerCase` (ASCII, which covers every use site). -/
def strLower (s : String) : String :=
  ⟨s.data.map Char.toLower⟩

/-- `String.prototype.trim`: drop whitespace from both ends. -/
def strTrim (s : String) : String :=
  ⟨((s.data.dropWhile Char.isWhitespace).reverse.dropWhile Char.isWhitespace).reverse⟩

/-- Whether a `:` immediately followed by a decimal digit occurs in the list:
this is exactly when the JS regex `/.*:\d+.*/` matches the string. -/
def colonDigitAux : List Char → Bool
  | c1 :: c2 :: rest => (c1 == ':' && c2.isDigit) || colonDigitAux (c2 :: rest)
  | _ => false

/-- `selector.match(/.*:\d+.*/)` is truthy exactly when the selector contains
a `:` immediately followed by a digit. -/
def hasColonDigit (s : String) : Bool :=
  colonDigitAux s.data

/-- Decimal value of a digit character (`'0'.toNat = 48`). -/
def decDigitVal (c : Char) : Nat := c.toNat - 48

/-- Decimal value of a digit-character list, most significant digit first. -/
def decListVal (l : List Char) : Nat :=
  l.foldl (fun a c => 10 * a + decDigitVal c) 0

/-- `Math.round(num / den)` for naturals: round half up. -/
def roundHalfUp (num den : Nat) : Nat :=
  (2 * num + den) / (2 * den)

/-- An untrusted JSON value as returned by a stand-in JSON leaf
(`expected` fields and the like): the code only ever stores these or
compares them, so booleans, numbers and strings suffice. -/
inductive JVal where
  | jbool : Bool → JVal
  | jnum : Nat → JVal
  | jstr : String → JVal
deriving DecidableEq

/-! ## GUI data model (`GuiTestGenerator.ts`) -/

/-- The twelve Playwright actions of the `PlaywrightStep.action` union. -/
inductive GuiAction where
  | goto | click | fill | select | hover | wait | screenshot
  | scroll | press | type | check | uncheck
deriving DecidableEq

/-- The `waitFor` union of `PlaywrightStep`. -/
inductive WaitFor where
  | networkidle | domcontentloaded | load | element
deriving DecidableEq

/-- The eight assertion types of the `Assertion.type` union. -/
inductive AssertType where
  | visible | text | value | url | count | attribute | style | screenshot
deriving DecidableEq

/-- The `priority` union of a test case. -/
inductive Priority where
  | critical | high | medium | low
deriving DecidableEq

/-- `PlaywrightStep.options` after validation.  `timeout = 0` models an
absent (or explicit `0`) timeout and `force = false` an absent `force`:
the code only ever reads these through JS-truthiness tests or `>`
comparisons, under which those pairs are indistinguishable.  The remaining
`trial`/`strict` members are never read and are elided. -/
structure StepOptions where
  timeout : Nat
  force : Bool
deriving DecidableEq

/-- A validated `PlaywrightStep`.  `selector`/`value` use `""` for absent. -/
structure PlaywrightStep where
  action : GuiAction
  selector : String
  value : String
  options : StepOptions
  description : String
  waitFor : Option WaitFor
  retry : Bool
deriving DecidableEq

/-- A validated `Assertion`.  `operator` is passed through unvalidated by
the code, hence a plain `String`. -/
structure Assertion where
  type : AssertType
  selector : String
  expected : JVal
  description : String
  timeout : Nat
  retry : Bool
  operator : String
deriving DecidableEq

/-- `GuiTestCase.testData`: the code only ever reads the truthiness of
`testData?.inputs`, so only that bit is modelled. -/
structure TestData where
  inputs : Bool
deriving DecidableEq

/-- A validated `GuiTestCase`. -/
structure GuiTestCase where
  id : String
  name : String
  description : String
  category : String
  priority : Priority
  estimatedDuration : String
  tags : List String
  prerequisites : List String
  testData : TestData
  steps : List PlaywrightStep
  assertions : List Assertion
  cleanup : List PlaywrightStep
deriving DecidableEq

/-- Raw (untrusted) step options as they arrive from the LLM. -/
structure RawStepOptions where
  timeout : Option Nat
  force : Option Bool
deriving DecidableEq

/-- A raw step from the LLM: `action` is an arbitrary string, everything
else may be absent. -/
structure RawStep where
  action : String
  selector : String
  value : String
  options : Option RawStepOptions
  description : String
  waitFor : Option WaitFor
  retry : Option Bool
deriving DecidableEq

/-- A raw assertion from the LLM. -/
structure RawAssertion where
  type : String
  selector : String
  expected : JVal
  description : String
  timeout : Option Nat
  retry : Option Bool
  operator : String
deriving DecidableEq

/-- A raw GUI test case from the LLM.  `steps`, `assertions`, `tags`,
`prerequisites` and `cleanup` are `Option (List _)` because the code
guards them with truthiness / `Array.isArray` checks; `cleanup` elements
are passed through unvalidated, hence already `PlaywrightStep`. -/
structure RawGuiTestCase where
  id : String
  name : String
  description : String
  category : String
  priority : String
  estimatedDuration : String
  tags : Option (List String)
  prerequisites : Option (List String)
  testData : Option TestData
  steps : Option (List RawStep)
  assertions : Option (List RawAssertion)
  cleanup : Option (List PlaywrightStep)
deriving DecidableEq

/-- The generation options read by the GUI validator: only `appUrl` and
`maxTestCases` are consulted (the other members feed the prompt only). -/
structure GuiTestOptions where
  appUrl : String
  maxTestCases : Option Nat
deriving DecidableEq

/-- `options.maxTestCases || 25`. -/
def guiMaxTests (o : GuiTestOptions) : Nat :=
  jsOrNat o.maxTestCases 25

/-! ## GUI validation (`validateAndEnhanceTestCases` and helpers) -/

/-- `validatePriority`: keep a member of the four-element union, else
`medium`. -/
def validatePriority (priority : String) : Priority :=
  if priority = "critical" then .critical
  else if priority = "high" then .high
  else if priority = "medium" then .medium
  else if priority = "low" then .low
  else .medium

/-- `validateAction`: keep one of the twelve valid actions, else `click`. -/
def validateAction (action : String) : GuiAction :=
  if action = "goto" then .goto
  else if action = "click" then .click
  else if action = "fill" then .fill
  else if action = "select" then .select
  else if action = "hover" then .hover
  else if action = "wait" then .wait
  else if action = "screenshot" then .screenshot
  else if action = "scroll" then .scroll
  else if action = "press" then .press
  else if action = "type" then .type
  else if action = "check" then .check
  else if action = "uncheck" then .uncheck
  else .click

/-- The step-options object built by `validateSteps`:
`{ timeout: step.options?.timeout || 10000, force: step.options?.force ||
false, ...step.options }`.  Because the spread comes last, a property that
is present in the raw options wins (even an explicit `0`/`false`), and the
`|| default` only takes effect for absent properties. -/
def validateStepOptions : Option RawStepOptions → StepOptions
  | none => ⟨10000, false⟩
  | some o => ⟨o.timeout.getD 10000, o.force.getD false⟩

/-- One step of `validateSteps` (the `steps.map((step, index) => ...)`
body), including the trailing `goto`-without-value fix-up. -/
def validateStep (appUrl : String) (index : Nat) (step : RawStep) : PlaywrightStep :=
  let validStep : PlaywrightStep :=
    { action := validateAction step.action
      selector := step.selector
      value := step.value
      options := validateStepOptions step.options
      description := jsOrStr step.description ("Step " ++ Nat.repr (index + 1))
      waitFor := step.waitFor
      retry := jsOrBool step.retry false }
  if validStep.action = GuiAction.goto ∧ validStep.value = "" then
    { validStep with value := appUrl }
  else validStep

/-- `validateSteps(steps, appUrl)`. -/
def validateSteps (steps : List RawStep) (appUrl : String) : List PlaywrightStep :=
  steps.mapIdx (fun index step => validateStep appUrl index step)

/-- `validateAssertionType`: keep a valid type, else `visible`. -/
def validateAssertionType (type : String) : AssertType :=
  if type = "visible" then .visible
  else if type = "text" then .text
  else if type = "value" then .value
  else if type = "url" then .url
  else if type = "count" then .count
  else if type = "attribute" then .attribute
  else if type = "style" then .style
  else if type = "screenshot" then .screenshot
  else .visible

/-- `validateAssertions`: note that `retry: assertion.retry || true` is
`jsOrBool _ true`, which evaluates to `true` for every input. -/
def validateAssertions (assertions : List RawAssertion) : List Assertion :=
  assertions.map fun assertion =>
    { type := validateAssertionType assertion.type
      selector := assertion.selector
      expected := assertion.expected
      description := jsOrStr assertion.description "Assertion validation"
      timeout := jsOrNat assertion.timeout 5000
      retry := jsOrBool assertion.retry true
      operator := jsOrStr assertion.operator "equals" }

/-- The id proposed on the `counter`-th collision: `` `${id}-${counter}` ``. -/
def suffixedId (id : String) (counter : Nat) : String :=
  id ++ "-" ++ Nat.repr counter

/-- The candidate inspected on iteration `k` of the `ensureUniqueId` while
loop: the unmodified `id` first, then `id-1`, `id-2`, ... . -/
def uniqueIdCandidate (id : String) (k : Nat) : String :=
  if k = 0 then id else suffixedId id k

/-- The `while (existingTests.some(test => test.id === uniqueId))` loop of
`ensureUniqueId`/`ensureUniqueApiId`, with explicit fuel.  The JS loop is
unbounded; the callers below run it with fuel `|existing| + 1`, which the
termination theorem (claim C10) proves sufficient, so the `none` case is
never reached. -/
def uniqueIdLoop (id : String) (ids : List String) : Nat → Nat → Option String
  | _, 0 => none
  | k, fuel + 1 =>
    if uniqueIdCandidate id k ∈ ids then uniqueIdLoop id ids (k + 1) fuel
    else some (uniqueIdCandidate id k)

/-- `ensureUniqueId(id, existingTests)` of `GuiTestGenerator.ts`. -/
def ensureUniqueId (id : String) (existingTests : List GuiTestCase) : String :=
  let ids := existingTests.map (·.id)
  (uniqueIdLoop id ids 0 (ids.length + 1)).getD id

/-- The minimum-field check of `validateAndEnhanceTestCases`:
`!testCase.id || !testCase.name || !testCase.steps ||
!Array.isArray(testCase.steps)` (a present array is always truthy, so
`steps.isSome` captures the last two tests; in particular an *empty*
array passes). -/
def guiAccepted (testCase : RawGuiTestCase) : Bool :=
  !(testCase.id == "") && !(testCase.name == "") && testCase.steps.isSome

/-- The `goto` step unshifted by `validateAndEnhanceTestCases` when no
validated step is a `goto`.  The literal carries no `selector`, `options`
or `retry`; absence is modelled by `""`, `⟨0, false⟩` and `false`. -/
def mkSynthGoto (appUrl : String) : PlaywrightStep :=
  { action := .goto
    selector := ""
    value := appUrl
    options := ⟨0, false⟩
    description := "Navigate to application"
    waitFor := some .networkidle
    retry := false }

/-- The per-element enhancement of `validateAndEnhanceTestCases`: build
`enhancedTest` with defaults, then unshift a synthesized `goto` step if no
validated step is a `goto`. -/
def guiEnhance (o : GuiTestOptions) (testCase : RawGuiTestCase)
    (validated : List GuiTestCase) : GuiTestCase :=
  let enhancedTest : GuiTestCase :=
    { id := ensureUniqueId testCase.id validated
      name := testCase.name
      description := jsOrStr testCase.description ("Test case for " ++ testCase.name)
      category := jsOrStr testCase.category "functional"
      priority := validatePriority testCase.priority
      estimatedDuration := jsOrStr testCase.estimatedDuration "1m"
      tags := match testCase.tags with
        | some tags => tags
        | none => ["automated"]
      prerequisites := testCase.prerequisites.getD []
      testData := testCase.testData.getD ⟨false⟩
      steps := validateSteps (testCase.steps.getD []) o.appUrl
      assertions := validateAssertions (testCase.assertions.getD [])
      cleanup := testCase.cleanup.getD [] }
  if enhancedTest.steps.any (fun step => decide (step.action = GuiAction.goto)) then
    enhancedTest
  else
    { enhancedTest with steps := mkSynthGoto o.appUrl :: enhancedTest.steps }

/-- The shared shape of the two validation loops (`for (let i = 0;
i < testCases.length && validated.length < maxTests; i++) ...`): skip an
element failing the minimum-field check, otherwise push its enhancement
(which sees the cases validated so far), stopping once `maxTests` cases
have been accepted. -/
def validateLoopCore {ρ τ : Type} (maxTests : Nat) (accepted : ρ → Bool)
    (enhance : ρ → List τ → τ) : List ρ → List τ → List τ
  | [], validated => validated
  | t :: ts, validated =>
    if validated.length < maxTests then
      if accepted t then
        validateLoopCore maxTests accepted enhance ts (validated ++ [enhance t validated])
      else
        validateLoopCore maxTests accepted enhance ts validated
    else validated

/-- The validation loop of `validateAndEnhanceTestCases` before the final
prioritization. -/
def guiValidateLoop (o : GuiTestOptions) (testCases : List RawGuiTestCase)
    (validated : List GuiTestCase) : List GuiTestCase :=
  validateLoopCore (guiMaxTests o) guiAccepted (guiEnhance o) testCases validated

/-- `priorityOrder = { critical: 0, high: 1, medium: 2, low: 3 }`. -/
def priorityRank : Priority → Nat
  | .critical => 0
  | .high => 1
  | .medium => 2
  | .low => 3

/-- The literal `categoryOrder` object of `prioritizeTestCases`. -/
def guiCategoryOrderLookup (category : String) : Option Nat :=
  if category = "authentication" then some 0
  else if category = "form" then some 1
  else if category = "navigation" then some 2
  else if category = "error" then some 3
  else if category = "accessibility" then some 4
  else none

/-- `categoryOrder[a.category] || 5`: an absent key yields 5, and so does
the looked-up value `0` (for `authentication`), because `0 || 5` is `5`
in JS. -/
def guiCategoryRank (category : String) : Nat :=
  jsOrNat (guiCategoryOrderLookup category) 5

/-- `comparator(a, b) ≤ 0` for the `prioritizeTestCases` comparator
(priority rank first, then category rank). -/
def guiSortLE (a b : GuiTestCase) : Prop :=
  priorityRank a.priority < priorityRank b.priority ∨
    (priorityRank a.priority = priorityRank b.priority ∧
      guiCategoryRank a.category ≤ guiCategoryRank b.category)

instance : DecidableRel guiSortLE := fun a b => by
  unfold guiSortLE; infer_instance

/-- `prioritizeTestCases`: `Array.prototype.sort` (stable) by the
two-key comparator, modelled as the stable insertion sort by
`comparator ≤ 0`. -/
def prioritizeTestCases (testCases : List GuiTestCase) : List GuiTestCase :=
  testCases.insertionSort guiSortLE

/-- `validateAndEnhanceTestCases(testCases, options)`. -/
def validateAndEnhanceTestCases (testCases : List RawGuiTestCase)
    (o : GuiTestOptions) : List GuiTestCase :=
  prioritizeTestCases (guiValidateLoop o testCases [])

/-- Specification-side reading of one validation pass (claim C3): every
accepted element, in input order, is enhanced against the cases validated
before it. -/
def enhancePass {ρ τ : Type} (enhance : ρ → List τ → τ) (l : List ρ)
    (validated : List τ) : List τ :=
  l.foldl (fun validated t => validated ++ [enhance t validated]) validated

/-! ## GUI fallback generation (`generateFallbackTests` and helpers) -/

/-- An input element of the extracted page information (only the members
the fallback generator reads). -/
structure InputInfo where
  type : String
  name : String
  id : String
  placeholder : String
  required : Bool
deriving DecidableEq

/-- A form of the extracted page information; `action`/`method` are never
read by the generator and are elided. -/
structure FormInfo where
  inputs : List InputInfo
deriving DecidableEq

/-- A link of the extracted page information; `className` is never read. -/
structure LinkInfo where
  href : String
  text : String
  id : String
deriving DecidableEq

/-- A button of the extracted page information; `className`/`type` are
never read. -/
structure ButtonInfo where
  text : String
  id : String
deriving DecidableEq

/-- The page information consumed by `generateFallbackTests` (`url`,
`inputs` and the screenshot are never read there). -/
structure PageInfo where
  title : String
  forms : List FormInfo
  links : List LinkInfo
  buttons : List ButtonInfo
deriving DecidableEq

/-- `generateTestValue(inputType)`. -/
def generateTestValue (inputType : String) : String :=
  if inputType = "email" then "test@example.com"
  else if inputType = "password" then "TestPassword123!"
  else if inputType = "number" then "42"
  else if inputType = "tel" then "+1234567890"
  else if inputType = "url" then "https://example.com"
  else "Test Value"

/-- A step literal of the fallback generator: these are written without
`selector`/`value`/`options`/`waitFor`/`retry` unless stated, absence
modelled as in `mkSynthGoto`. -/
def mkFallbackStep (action : GuiAction) (selector value description : String)
    (timeout : Nat) : PlaywrightStep :=
  { action := action
    selector := selector
    value := value
    options := ⟨timeout, false⟩
    description := description
    waitFor := none
    retry := false }

/-- An assertion literal of the fallback generator (no `timeout`, `retry`
or `operator` in the source literals). -/
def mkFallbackAssertion (type : AssertType) (selector : String) (expected : JVal)
    (description : String) : Assertion :=
  { type := type
    selector := selector
    expected := expected
    description := description
    timeout := 0
    retry := false
    operator := "" }

/-- `generateFormTestSteps(form)`: fill text/email/password inputs, select
the first option of selects, then click submit if the form has a submit
input.  (The source guards the body with `form.inputs &&
form.inputs.length > 0`, which is equivalent to iterating the possibly
empty list.) -/
def generateFormTestSteps (form : FormInfo) : List PlaywrightStep :=
  (form.inputs.flatMap fun input =>
    if input.type = "text" ∨ input.type = "email" ∨ input.type = "password" then
      [mkFallbackStep .fill
        (if input.id ≠ "" then "#" ++ input.id else "input[name=\"" ++ input.name ++ "\"]")
        (generateTestValue input.type)
        ("Fill " ++ jsOrStr input.name input.id ++ " with test value") 0]
    else if input.type = "select" then
      [mkFallbackStep .select
        (if input.id ≠ "" then "#" ++ input.id else "select[name=\"" ++ input.name ++ "\"]")
        "first"
        ("Select first option in " ++ jsOrStr input.name input.id) 0]
    else []) ++
  (if form.inputs.any (fun input => input.type == "submit") then
    [mkFallbackStep .click "input[type=\"submit\"]" "" "Submit form" 0]
  else [])

/-- `generateFormAssertions(form)`. -/
def generateFormAssertions (form : FormInfo) : List Assertion :=
  mkFallbackAssertion .visible "form" (.jbool true) "Form should be visible" ::
    form.inputs.flatMap fun input =>
      if input.required then
        [mkFallbackAssertion .attribute
          (if input.id ≠ "" then "#" ++ input.id else "input[name=\"" ++ input.name ++ "\"]")
          (.jstr "required")
          (jsOrStr input.name input.id ++ " should be required")]
      else []

/-- A test-case literal of the fallback generator (the literals carry no
`prerequisites`, `testData` or `cleanup`; absence modelled by the empty
values, which is all the quality analyzer can observe). -/
def mkFallbackGuiTest (id name description category : String) (priority : Priority)
    (estimatedDuration : String) (tags : List String) (steps : List PlaywrightStep)
    (assertions : List Assertion) : GuiTestCase :=
  { id := id
    name := name
    description := description
    category := category
    priority := priority
    estimatedDuration := estimatedDuration
    tags := tags
    prerequisites := []
    testData := ⟨false⟩
    steps := steps
    assertions := assertions
    cleanup := [] }

/-- `generateFallbackTests(pageInfo, options)`: the deterministic suite
built from the structural page facts — a basic load test, one test per
form, up to five button tests and up to three link tests. -/
def generateFallbackTests (pageInfo : PageInfo) (o : GuiTestOptions) : List GuiTestCase :=
  let gotoStep := mkFallbackStep .goto "" o.appUrl "Navigate to application" 0
  let basic := mkFallbackGuiTest "gui-basic-load" "Basic Page Load"
    "Verify page loads correctly" "smoke" .high "30s" ["basic", "smoke"]
    [gotoStep,
     mkFallbackStep .wait "body" "" "Wait for page to load" 0,
     mkFallbackStep .screenshot "" "" "Take screenshot for verification" 0]
    [mkFallbackAssertion .visible "body" (.jbool true) "Page body should be visible",
     mkFallbackAssertion .text "title" (.jstr pageInfo.title)
       ("Page title should be \"" ++ pageInfo.title ++ "\"")]
  let formTests := pageInfo.forms.mapIdx fun index form =>
    mkFallbackGuiTest ("gui-form-" ++ Nat.repr index)
      ("Form " ++ Nat.repr (index + 1) ++ " Validation")
      "Test form validation and submission" "form" .high "45s" ["form", "validation"]
      (gotoStep :: generateFormTestSteps form ++
        [mkFallbackStep .screenshot "" "" "Take screenshot after form interaction" 0])
      (generateFormAssertions form)
  let buttonTests := ((pageInfo.buttons.take 5).mapIdx fun index button =>
    if button.text ≠ "" ∧ strTrim button.text ≠ "" then
      some (mkFallbackGuiTest ("gui-button-" ++ Nat.repr index)
        ("Button Click - " ++ button.text)
        ("Test clicking \"" ++ button.text ++ "\" button")
        "interaction" .medium "20s" ["interaction", "buttons"]
        [gotoStep,
         mkFallbackStep .click
           (if button.id ≠ "" then "#" ++ button.id
            else "button:has-text(\"" ++ button.text ++ "\")")
           "" ("Click \"" ++ button.text ++ "\" button") 0,
         mkFallbackStep .wait "" "" "Wait for action to complete" 3000,
         mkFallbackStep .screenshot "" "" "Take screenshot after button click" 0]
        [mkFallbackAssertion .visible "body" (.jbool true)
          "Page should remain accessible after button click"])
    else none).reduceOption
  let linkTests := ((pageInfo.links.take 3).mapIdx fun index link =>
    if link.text ≠ "" ∧ link.href ≠ "" ∧
        ¬ strStartsWith link.href "mailto:" ∧ ¬ strStartsWith link.href "tel:" then
      some (mkFallbackGuiTest ("gui-link-" ++ Nat.repr index)
        ("Link Navigation - " ++ link.text)
        ("Test navigation via \"" ++ link.text ++ "\" link")
        "navigation" .medium "25s" ["navigation", "links"]
        [gotoStep,
         mkFallbackStep .click
           (if link.id ≠ "" then "#" ++ link.id
            else "a:has-text(\"" ++ link.text ++ "\")")
           "" ("Click \"" ++ link.text ++ "\" link") 0,
         mkFallbackStep .wait "" "" "Wait for navigation to complete" 5000,
         mkFallbackStep .screenshot "" "" "Take screenshot of destination page" 0]
        [mkFallbackAssertion .url "" (.jstr link.href)
          ("Should navigate to " ++ link.href)])
    else none).reduceOption
  basic :: formTests ++ buttonTests ++ linkTests

/-- The top-level shape of the untrusted JSON returned by
`llmProvider.generateJSON`: either an array of candidate elements or any
other value (object, string, number, ...), the latter carrying only a
printed form since the code never looks inside it. -/
inductive LLMTop (α : Type) where
  | jsonArray : List α → LLMTop α
  | nonArray : String → LLMTop α
deriving DecidableEq

/-- The post-LLM part of `GuiTestGenerator.generateTestCases`: the
`Array.isArray` check routes a non-array response to the fallback suite,
an array response to validation. -/
def generateGuiTestCases (pageInfo : PageInfo) (o : GuiTestOptions) :
    LLMTop RawGuiTestCase → List GuiTestCase
  | .jsonArray testCases => validateAndEnhanceTestCases testCases o
  | .nonArray _ => generateFallbackTests pageInfo o

/-! ## API data model (`ApiTestGenerator.ts`) -/

/-- The six assertion types of the `ApiAssertion.type` union. -/
inductive ApiAssertType where
  | status | header | body | schema | performance | security
deriving DecidableEq

/-- A validated `ApiAssertion`.  `path` uses `""` for absent; `operator`
is passed through unvalidated. -/
structure ApiAssertion where
  type : ApiAssertType
  path : String
  operator : String
  expected : JVal
  description : String
  timeout : Nat
deriving DecidableEq

/-- A raw API assertion from the LLM. -/
structure RawApiAssertion where
  type : String
  path : String
  operator : String
  expected : JVal
  description : String
  timeout : Option Nat
deriving DecidableEq

/-- A validated `ApiTestCase`.  `body` models only the truthiness of the
request body; `dataSetup` keeps only the key list (the code reads
`Object.keys(...).length`); `dataCleanup`/`variableExtraction` keep only
truthiness; `queryParams`, `expectedHeaders` and `expectedResponse` are
never read after validation and are elided. -/
structure ApiTestCase where
  id : String
  name : String
  description : String
  category : String
  priority : Priority
  estimatedDuration : String
  tags : List String
  prerequisites : List String
  dependencies : List String
  method : String
  endpoint : String
  baseUrl : String
  headers : List (String × String)
  body : Bool
  expectedStatus : Nat
  assertions : List ApiAssertion
  dataSetup : Option (List String)
  dataCleanup : Bool
  variableExtraction : Bool
deriving DecidableEq

/-- A raw API test case from the LLM (same elisions as `ApiTestCase`). -/
structure RawApiTestCase where
  id : String
  name : String
  description : String
  category : String
  priority : String
  estimatedDuration : String
  tags : Option (List String)
  prerequisites : Option (List String)
  dependencies : Option (List String)
  method : String
  endpoint : String
  baseUrl : String
  headers : Option (List (String × String))
  body : Bool
  expectedStatus : Option Nat
  assertions : Option (List RawApiAssertion)
  dataSetup : Option (List String)
  dataCleanup : Bool
  variableExtraction : Bool
deriving DecidableEq

/-- A network call observed by `discoverAPIs` (`response` is never read
by the fallback generator and is elided). -/
structure DiscoveredAPI where
  method : String
  url : String
  headers : List (String × String)
  body : Bool
  status : Nat
deriving DecidableEq

/-- An endpoint of the parsed user journey (`expectedResponse` elided, as
it only feeds the elided `expectedResponse` field). -/
structure JourneyEndpoint where
  method : String
  path : String
  description : String
  statusCode : Option Nat
deriving DecidableEq

/-- The parsed user journey, as read by `generateFallbackApiTests`. -/
structure UserJourney where
  apiEndpoints : Option (List JourneyEndpoint)
deriving DecidableEq

/-- The generation options read by the API validator and the fallback /
specialized generators (`specFile`, `complexity`, `testCategories` feed
the prompt only). -/
structure ApiTestOptions where
  baseUrl : String
  maxTestCases : Option Nat
  discoveredAPIs : Option (List DiscoveredAPI)
  userJourney : Option UserJourney
  includeSecurityTests : Bool
  includePerformanceTests : Bool
deriving DecidableEq

/-- `options.maxTestCases || 30`. -/
def apiMaxTests (o : ApiTestOptions) : Nat :=
  jsOrNat o.maxTestCases 30

/-! ## API validation (`validateAndEnhanceApiTestCases` and helpers) -/

/-- `validateApiPriority` (identical body to `validatePriority`). -/
def validateApiPriority (priority : String) : Priority :=
  if priority = "critical" then .critical
  else if priority = "high" then .high
  else if priority = "medium" then .medium
  else if priority = "low" then .low
  else .medium

/-- The first (anchored) match of `/^https?:\/\/[^\/]+/` removed: if the
string starts with a scheme followed by at least one non-`/` character,
drop the scheme and those characters. -/
def stripHttpOrigin (s : String) : String :=
  let tryScheme : List Char → Option (List Char) := fun pre =>
    if pre.isPrefixOf s.data then
      let rest := s.data.drop pre.length
      let host := rest.takeWhile (fun c => !(c == '/'))
      if host.isEmpty then none else some (rest.drop host.length)
    else none
  match tryScheme "https://".data with
  | some r => ⟨r⟩
  | none =>
    match tryScheme "http://".data with
    | some r => ⟨r⟩
    | none => s

/-- `normalizeEndpoint(endpoint)`: strip a leading origin, then ensure a
leading `/`. -/
def normalizeEndpoint (endpoint : String) : String :=
  let path := stripHttpOrigin endpoint
  if strStartsWith path "/" then path else "/" ++ path

/-- `getDefaultStatus(method)`: `POST` → 201, `DELETE` → 204, and
`PUT`/`PATCH`/`GET`/default → 200 (after upper-casing). -/
def getDefaultStatus (method : String) : Nat :=
  if strUpper method = "POST" then 201
  else if strUpper method = "DELETE" then 204
  else 200

/-- `validateApiAssertionType`: keep a valid type, else `status`. -/
def validateApiAssertionType (type : String) : ApiAssertType :=
  if type = "status" then .status
  else if type = "header" then .header
  else if type = "body" then .body
  else if type = "schema" then .schema
  else if type = "performance" then .performance
  else if type = "security" then .security
  else .status

/-- `validateApiAssertions`. -/
def validateApiAssertions (assertions : List RawApiAssertion) : List ApiAssertion :=
  assertions.map fun assertion =>
    { type := validateApiAssertionType assertion.type
      path := assertion.path
      operator := jsOrStr assertion.operator "equals"
      expected := assertion.expected
      description := jsOrStr assertion.description "API assertion"
      timeout := jsOrNat assertion.timeout 5000 }

/-- `ensureUniqueApiId(id, existingTests)` (identical body to
`ensureUniqueId`, over API cases). -/
def ensureUniqueApiId (id : String) (existingTests : List ApiTestCase) : String :=
  let ids := existingTests.map (·.id)
  (uniqueIdLoop id ids 0 (ids.length + 1)).getD id

/-- The minimum-field check of `validateAndEnhanceApiTestCases`:
`!testCase.id || !testCase.name || !testCase.method ||
!testCase.endpoint`. -/
def apiAccepted (testCase : RawApiTestCase) : Bool :=
  !(testCase.id == "") && !(testCase.name == "") &&
    !(testCase.method == "") && !(testCase.endpoint == "")

/-- The default status assertion unshifted by
`validateAndEnhanceApiTestCases` when no validated assertion has type
`status`. -/
def mkStatusAssertion (expectedStatus : Nat) : ApiAssertion :=
  { type := .status
    path := ""
    operator := "equals"
    expected := .jnum expectedStatus
    description := "Should return " ++ Nat.repr expectedStatus ++ " status"
    timeout := 0 }

/-- The per-element enhancement of `validateAndEnhanceApiTestCases`:
defaults, upper-cased method, normalized endpoint, defaulted
`expectedStatus`, a `Content-Type` header for `POST`/`PUT`/`PATCH` with a
body (object spread puts it first), and an unshifted status assertion when
none is present. -/
def apiEnhance (o : ApiTestOptions) (testCase : RawApiTestCase)
    (validated : List ApiTestCase) : ApiTestCase :=
  let enhancedTest : ApiTestCase :=
    { id := ensureUniqueApiId testCase.id validated
      name := testCase.name
      description := jsOrStr testCase.description
        ("API test for " ++ testCase.method ++ " " ++ testCase.endpoint)
      category := jsOrStr testCase.category "functional"
      priority := validateApiPriority testCase.priority
      estimatedDuration := jsOrStr testCase.estimatedDuration "500ms"
      tags := match testCase.tags with
        | some tags => tags
        | none => ["api", "automated"]
      prerequisites := testCase.prerequisites.getD []
      dependencies := testCase.dependencies.getD []
      method := strUpper testCase.method
      endpoint := normalizeEndpoint testCase.endpoint
      baseUrl := jsOrStr testCase.baseUrl o.baseUrl
      headers := testCase.headers.getD []
      body := testCase.body
      expectedStatus := jsOrNat testCase.expectedStatus (getDefaultStatus testCase.method)
      assertions := validateApiAssertions (testCase.assertions.getD [])
      dataSetup := testCase.dataSetup
      dataCleanup := testCase.dataCleanup
      variableExtraction := testCase.variableExtraction }
  let enhancedTest :=
    if (enhancedTest.method = "POST" ∨ enhancedTest.method = "PUT" ∨
        enhancedTest.method = "PATCH") ∧ enhancedTest.body then
      { enhancedTest with
          headers := ("Content-Type", "application/json") :: enhancedTest.headers }
    else enhancedTest
  if enhancedTest.assertions.any (fun a => decide (a.type = ApiAssertType.status)) then
    enhancedTest
  else
    { enhancedTest with
        assertions := mkStatusAssertion enhancedTest.expectedStatus :: enhancedTest.assertions }

/-- The validation loop of `validateAndEnhanceApiTestCases` before the
final prioritization. -/
def apiValidateLoop (o : ApiTestOptions) (testCases : List RawApiTestCase)
    (validated : List ApiTestCase) : List ApiTestCase :=
  validateLoopCore (apiMaxTests o) apiAccepted (apiEnhance o) testCases validated

/-- The literal `categoryOrder` object of `prioritizeApiTestCases`. -/
def apiCategoryOrderLookup (category : String) : Option Nat :=
  if category = "authentication" then some 0
  else if category = "crud" then some 1
  else if category = "validation" then some 2
  else if category = "security" then some 3
  else if category = "performance" then some 4
  else if category = "error" then some 5
  else none

/-- `categoryOrder[a.category] || 6`: an absent key yields 6, and so does
the looked-up value `0` (for `authentication`), because `0 || 6` is `6`
in JS. -/
def apiCategoryRank (category : String) : Nat :=
  jsOrNat (apiCategoryOrderLookup category) 6

/-- `comparator(a, b) ≤ 0` for the `prioritizeApiTestCases` comparator. -/
def apiSortLE (a b : ApiTestCase) : Prop :=
  priorityRank a.priority < priorityRank b.priority ∨
    (priorityRank a.priority = priorityRank b.priority ∧
      apiCategoryRank a.category ≤ apiCategoryRank b.category)

instance : DecidableRel apiSortLE := fun a b => by
  unfold apiSortLE; infer_instance

/-- `prioritizeApiTestCases`: stable sort by the two-key comparator. -/
def prioritizeApiTestCases (testCases : List ApiTestCase) : List ApiTestCase :=
  testCases.insertionSort apiSortLE

/-- `validateAndEnhanceApiTestCases(testCases, options)`. -/
def validateAndEnhanceApiTestCases (testCases : List RawApiTestCase)
    (o : ApiTestOptions) : List ApiTestCase :=
  prioritizeApiTestCases (apiValidateLoop o testCases [])

/-! ## API specialized and fallback generation -/

/-- `generateSecurityTests(apis)`: one security probe per discovered API.
The malicious body object exists only for `POST` (hence `body`-truthiness
`method == "POST"`); its contents are elided with the rest of the body. -/
def generateSecurityTests (apis : List DiscoveredAPI) : List ApiTestCase :=
  apis.mapIdx fun index api =>
    { id := "api-security-" ++ Nat.repr index
      name := "Security Test - " ++ api.method ++ " " ++ api.url
      description := "Test security vulnerabilities for " ++ api.method ++ " " ++ api.url
      category := "security"
      priority := .high
      estimatedDuration := "1s"
      tags := ["security", "automated"]
      prerequisites := []
      dependencies := []
      method := api.method
      endpoint := api.url
      baseUrl := ""
      headers := ("X-Malicious-Header", "<script>alert(\"xss\")</script>") :: api.headers
      body := api.method == "POST"
      expectedStatus := if api.status < 400 then api.status else 400
      assertions :=
        [{ type := .status
           path := ""
           operator := "equals"
           expected := .jnum (if api.status < 400 then api.status else 400)
           description := "Should handle malicious input safely"
           timeout := 0 },
         { type := .security
           path := ""
           operator := "exists"
           expected := .jstr "no_script_execution"
           description := "Should not execute malicious scripts"
           timeout := 0 }]
      dataSetup := none
      dataCleanup := false
      variableExtraction := false }

/-- `generatePerformanceTests(apis)`. -/
def generatePerformanceTests (apis : List DiscoveredAPI) : List ApiTestCase :=
  apis.mapIdx fun index api =>
    { id := "api-performance-" ++ Nat.repr index
      name := "Performance Test - " ++ api.method ++ " " ++ api.url
      description := "Test response time for " ++ api.method ++ " " ++ api.url
      category := "performance"
      priority := .medium
      estimatedDuration := "2s"
      tags := ["performance", "automated"]
      prerequisites := []
      dependencies := []
      method := api.method
      endpoint := api.url
      baseUrl := ""
      headers := api.headers
      body := api.body
      expectedStatus := api.status
      assertions :=
        [{ type := .status
           path := ""
           operator := "equals"
           expected := .jnum api.status
           description := "Should return " ++ Nat.repr api.status ++ " status"
           timeout := 0 },
         { type := .performance
           path := ""
           operator := "less"
           expected := .jnum 2000
           description := "Should respond within 2 seconds"
           timeout := 0 }]
      dataSetup := none
      dataCleanup := false
      variableExtraction := false }

/-- `generateSpecializedTests(options)`: security tests over the first
three discovered APIs, performance tests over the first two, each gated
on its flag and on a truthy `discoveredAPIs`. -/
def generateSpecializedTests (o : ApiTestOptions) : List ApiTestCase :=
  (if o.includeSecurityTests ∧ o.discoveredAPIs.isSome then
    generateSecurityTests ((o.discoveredAPIs.getD []).take 3)
  else []) ++
  (if o.includePerformanceTests ∧ o.discoveredAPIs.isSome then
    generatePerformanceTests ((o.discoveredAPIs.getD []).take 2)
  else [])

/-- The happy-path fallback test for one discovered API. -/
def mkHappyPathApiTest (index : Nat) (api : DiscoveredAPI) : ApiTestCase :=
  { id := "api-" ++ Nat.repr index ++ "-happy"
    name := api.method ++ " " ++ api.url ++ " - Happy Path"
    description := "Test successful " ++ api.method ++ " request to " ++ api.url
    category := "functional"
    priority := .high
    estimatedDuration := "500ms"
    tags := ["api", "happy-path"]
    prerequisites := []
    dependencies := []
    method := api.method
    endpoint := api.url
    baseUrl := ""
    headers := api.headers
    body := api.body
    expectedStatus := 200
    assertions :=
      [{ type := .status
         path := ""
         operator := "equals"
         expected := .jnum 200
         description := "Should return 200 OK"
         timeout := 0 },
       { type := .performance
         path := ""
         operator := "less"
         expected := .jnum 5000
         description := "Should respond within 5 seconds"
         timeout := 0 }]
    dataSetup := none
    dataCleanup := false
    variableExtraction := false }

/-- The invalid-data fallback test pushed for `POST`/`PUT` discovered
APIs (`body: { invalid: "data" }` is a truthy object). -/
def mkInvalidDataApiTest (index : Nat) (api : DiscoveredAPI) : ApiTestCase :=
  { id := "api-" ++ Nat.repr index ++ "-invalid"
    name := api.method ++ " " ++ api.url ++ " - Invalid Data"
    description := "Test " ++ api.method ++ " request with invalid data"
    category := "error"
    priority := .medium
    estimatedDuration := "500ms"
    tags := ["api", "error-handling"]
    prerequisites := []
    dependencies := []
    method := api.method
    endpoint := api.url
    baseUrl := ""
    headers := api.headers
    body := true
    expectedStatus := 400
    assertions :=
      [{ type := .status
         path := ""
         operator := "equals"
         expected := .jnum 400
         description := "Should return 400 Bad Request for invalid data"
         timeout := 0 }]
    dataSetup := none
    dataCleanup := false
    variableExtraction := false }

/-- The fallback test for one user-journey endpoint. -/
def mkJourneyApiTest (index : Nat) (endpoint : JourneyEndpoint) : ApiTestCase :=
  { id := "journey-api-" ++ Nat.repr index
    name := endpoint.method ++ " " ++ endpoint.path ++ " - Journey Test"
    description := jsOrStr endpoint.description
      ("Test " ++ endpoint.method ++ " " ++ endpoint.path)
    category := "user-journey"
    priority := .high
    estimatedDuration := "1s"
    tags := ["api", "user-journey"]
    prerequisites := []
    dependencies := []
    method := endpoint.method
    endpoint := endpoint.path
    baseUrl := ""
    headers := []
    body := false
    expectedStatus := jsOrNat endpoint.statusCode 200
    assertions :=
      [{ type := .status
         path := ""
         operator := "equals"
         expected := .jnum (jsOrNat endpoint.statusCode 200)
         description := "Should return " ++ Nat.repr (jsOrNat endpoint.statusCode 200)
         timeout := 0 }]
    dataSetup := none
    dataCleanup := false
    variableExtraction := false }

/-- `generateFallbackApiTests(options)`: per discovered API a happy-path
test plus, for `POST`/`PUT`, an invalid-data test; then one test per
user-journey endpoint (both blocks gated on truthiness of their
source). -/
def generateFallbackApiTests (o : ApiTestOptions) : List ApiTestCase :=
  ((o.discoveredAPIs.getD []).mapIdx fun index api =>
    mkHappyPathApiTest index api ::
      (if api.method = "POST" ∨ api.method = "PUT" then
        [mkInvalidDataApiTest index api]
      else [])).flatten ++
  (match o.userJourney with
   | some journey =>
     (journey.apiEndpoints.getD []).mapIdx fun index endpoint =>
       mkJourneyApiTest index endpoint
   | none => [])

/-- The post-LLM part of `ApiTestGenerator.generateTestCases`: a
non-array response routes to the fallback suite; an array response is
validated and the specialized tests are appended. -/
def generateApiTestCases (o : ApiTestOptions) :
    LLMTop RawApiTestCase → List ApiTestCase
  | .jsonArray testCases =>
    validateAndEnhanceApiTestCases testCases o ++ generateSpecializedTests o
  | .nonArray _ => generateFallbackApiTests o

/-! ## Quality analysis (`TestQualityAnalyzer.ts`)

Each analyzer starts a score at 100 (coverage: at `15 ×` / `20 ×` the
category or method diversity), subtracts integer penalties and clamps
with `Math.max(0, score)` (coverage also `Math.min(100, ...)`).  Over the
integers, subtracting the accumulated penalties and clamping at 0 at the
end equals iterated truncated subtraction over `Nat`, which is how the
scores are written here.  The `issues` and `suggestions` outputs never
feed back into any score and are elided. -/

/-- The five category scores of a `QualityScore`. -/
structure QualityCategories where
  completeness : Nat
  maintainability : Nat
  reliability : Nat
  coverage : Nat
  performance : Nat
deriving DecidableEq

/-- A `QualityScore` (issues/suggestions elided — see section comment). -/
structure QualityScore where
  overall : Nat
  categories : QualityCategories
deriving DecidableEq

/-- A brittle selector: contains `nth-child`, `nth-of-type`, or matches
`/.*:\d+.*/`. -/
def isBrittleSelector (selector : String) : Bool :=
  strIncludes selector "nth-child" || strIncludes selector "nth-of-type" ||
    hasColonDigit selector

/-- Per-test penalties of `analyzeGuiCompleteness`: brief description −5,
no assertions −15, fill steps without test data −5, authentication
without cleanup −3. -/
def guiCompletenessPenalty (t : GuiTestCase) : Nat :=
  (if t.description.length < 10 then 5 else 0) +
  (if t.assertions.isEmpty then 15 else 0) +
  (if t.steps.any (fun s => decide (s.action = GuiAction.fill)) && !t.testData.inputs
    then 5 else 0) +
  (if t.category == "authentication" && t.cleanup.isEmpty then 3 else 0)

/-- `analyzeGuiCompleteness`. -/
def analyzeGuiCompleteness (testCases : List GuiTestCase) : Nat :=
  100 - (testCases.map guiCompletenessPenalty).sum

/-- Per-test penalties of `analyzeGuiMaintainability`: brittle selectors
−10, more than two hardcoded waits −5, fewer than two tags −2. -/
def guiMaintainabilityPenalty (t : GuiTestCase) : Nat :=
  let brittleSelectors :=
    ((t.steps.filter (fun s => !(s.selector == ""))).map (·.selector)).filter
      isBrittleSelector
  let hardcodedWaits := t.steps.filter fun s =>
    decide (s.action = GuiAction.wait) && s.options.timeout != 0 && s.selector == ""
  (if brittleSelectors.length > 0 then 10 else 0) +
  (if hardcodedWaits.length > 2 then 5 else 0) +
  (if t.tags.length < 2 then 2 else 0)

/-- `analyzeGuiMaintainability`. -/
def analyzeGuiMaintainability (testCases : List GuiTestCase) : Nat :=
  100 - (testCases.map guiMaintainabilityPenalty).sum

/-- Per-test penalties of `analyzeGuiReliability`: more than half the
critical steps without retry −5, click/goto steps without `waitFor` −3,
timeouts above 30s −2.  (`x > len * 0.5` is `2 * x > len` exactly.) -/
def guiReliabilityPenalty (t : GuiTestCase) : Nat :=
  let criticalSteps := t.steps.filter fun s =>
    decide (s.action = GuiAction.click) || decide (s.action = GuiAction.fill) ||
      decide (s.action = GuiAction.select)
  let stepsWithoutRetry := criticalSteps.filter (fun s => !s.retry)
  let actionSteps := t.steps.filter fun s =>
    decide (s.action = GuiAction.click) || decide (s.action = GuiAction.goto)
  let stepsWithoutWait := actionSteps.filter (fun s => s.waitFor.isNone)
  let stepsWithLongTimeout := t.steps.filter fun s =>
    s.options.timeout != 0 && decide (s.options.timeout > 30000)
  (if 2 * stepsWithoutRetry.length > criticalSteps.length then 5 else 0) +
  (if stepsWithoutWait.length > 0 then 3 else 0) +
  (if stepsWithLongTimeout.length > 0 then 2 else 0)

/-- `analyzeGuiReliability`. -/
def analyzeGuiReliability (testCases : List GuiTestCase) : Nat :=
  100 - (testCases.map guiReliabilityPenalty).sum

/-- `analyzeGuiCoverage`: `15 ×` the number of distinct categories, minus
`10 ×` each missing essential category, minus 15 when no critical tests
and fewer than 30% high-priority tests, clamped to `[0, 100]`.
(`x < len * 0.3` is `10 * x < 3 * len` exactly.) -/
def analyzeGuiCoverage (testCases : List GuiTestCase) : Nat :=
  let uniqueCategories := (testCases.map (·.category)).dedup
  let missingEssential :=
    (["form", "navigation", "error"]).filter fun c => !(uniqueCategories.contains c)
  let criticalTests :=
    (testCases.filter (fun t => decide (t.priority = Priority.critical))).length
  let highTests :=
    (testCases.filter (fun t => decide (t.priority = Priority.high))).length
  let score := uniqueCategories.length * 15
  let score := score - (if missingEssential.length > 0 then missingEssential.length * 10 else 0)
  let score := score -
    (if criticalTests = 0 ∧ 10 * highTests < 3 * testCases.length then 15 else 0)
  min 100 score

/-- `analyzeGuiPerformance`: −10 when a suite of more than five tests has
no performance-focused test, −5 when screenshots exceed twice the number
of tests. -/
def analyzeGuiPerformance (testCases : List GuiTestCase) : Nat :=
  let performanceTests := testCases.filter fun t =>
    t.tags.contains "performance" || t.category == "performance"
  let screenshotSteps :=
    (testCases.map fun t =>
      (t.steps.filter (fun s => decide (s.action = GuiAction.screenshot))).length).sum
  100 -
    ((if performanceTests.length = 0 ∧ testCases.length > 5 then 10 else 0) +
     (if screenshotSteps > testCases.length * 2 then 5 else 0))

/-- `analyzeGuiTestQuality`: the five category scores and
`Math.round` of their arithmetic mean. -/
def analyzeGuiTestQuality (testCases : List GuiTestCase) : QualityScore :=
  let completeness := analyzeGuiCompleteness testCases
  let maintainability := analyzeGuiMaintainability testCases
  let reliability := analyzeGuiReliability testCases
  let coverage := analyzeGuiCoverage testCases
  let performance := analyzeGuiPerformance testCases
  { overall := roundHalfUp
      (completeness + maintainability + reliability + coverage + performance) 5
    categories :=
      { completeness := completeness
        maintainability := maintainability
        reliability := reliability
        coverage := coverage
        performance := performance } }

/-- Per-test penalties of `analyzeApiCompleteness`. -/
def apiCompletenessPenalty (t : ApiTestCase) : Nat :=
  (if t.assertions.isEmpty then 15 else 0) +
  (if !(t.assertions.any fun a => decide (a.type = ApiAssertType.status)) then 5 else 0) +
  (if (t.method == "POST" || t.method == "PUT" || t.method == "PATCH") &&
      !(t.assertions.any fun a => decide (a.type = ApiAssertType.body)) then 5 else 0) +
  (if t.method == "POST" && t.category == "crud" && !t.dataCleanup then 3 else 0)

/-- `analyzeApiCompleteness`. -/
def analyzeApiCompleteness (testCases : List ApiTestCase) : Nat :=
  100 - (testCases.map apiCompletenessPenalty).sum

/-- Per-test penalties of `analyzeApiMaintainability`: hardcoded URLs −5,
hardcoded (non-template) auth headers −10, `POST` with body but no
variable extraction −2. -/
def apiMaintainabilityPenalty (t : ApiTestCase) : Nat :=
  let authHeaders := t.headers.filter fun kv =>
    strIncludes (strLower kv.1) "auth" && !(strIncludes kv.2 "\x7b\x7b")
  (if strIncludes t.endpoint "localhost" || strIncludes t.endpoint "http" then 5 else 0) +
  (if authHeaders.length > 0 then 10 else 0) +
  (if t.method == "POST" && t.body && !t.variableExtraction then 2 else 0)

/-- `analyzeApiMaintainability`. -/
def analyzeApiMaintainability (testCases : List ApiTestCase) : Nat :=
  100 - (testCases.map apiMaintainabilityPenalty).sum

/-- Per-test penalties of `analyzeApiReliability`. -/
def apiReliabilityPenalty (t : ApiTestCase) : Nat :=
  let hasPerformanceAssertion :=
    t.assertions.any fun a => decide (a.type = ApiAssertType.performance)
  let hasCustomTimeout :=
    t.assertions.any fun a => a.timeout != 0 && decide (a.timeout > 10000)
  let hasSetup : Bool := match t.dataSetup with
    | some keys => decide (keys.length > 0)
    | none => false
  (if !hasPerformanceAssertion && !(t.category == "performance") && hasCustomTimeout
    then 2 else 0) +
  (if t.dependencies.length > 0 ∧ !hasSetup then 5 else 0) +
  (if t.expectedStatus ≥ 400 ∧ t.assertions.length = 1 then 2 else 0)

/-- `analyzeApiReliability`. -/
def analyzeApiReliability (testCases : List ApiTestCase) : Nat :=
  100 - (testCases.map apiReliabilityPenalty).sum

/-- `analyzeApiCoverage`: `20 ×` the number of distinct methods, minus
`10 ×` each missing CRUD method (for suites of more than three tests),
minus 15 on insufficient error coverage, clamped to `[0, 100]`.
(`x < len * 0.2` is `5 * x < len` exactly.) -/
def analyzeApiCoverage (testCases : List ApiTestCase) : Nat :=
  let uniqueMethods := (testCases.map (·.method)).dedup
  let missingCrud :=
    (["GET", "POST", "PUT", "DELETE"]).filter fun m => !(uniqueMethods.contains m)
  let errorTests := testCases.filter fun t => decide (t.expectedStatus ≥ 400)
  let score := uniqueMethods.length * 20
  let score := score -
    (if missingCrud.length > 0 ∧ testCases.length > 3 then missingCrud.length * 10 else 0)
  let score := score - (if 5 * errorTests.length < testCases.length then 15 else 0)
  min 100 score

/-- `analyzeApiPerformance`: −10 when a suite of more than three tests has
no performance assertion. -/
def analyzeApiPerformance (testCases : List ApiTestCase) : Nat :=
  let performanceAssertions :=
    (testCases.map fun t =>
      (t.assertions.filter (fun a => decide (a.type = ApiAssertType.performance))).length).sum
  100 - (if performanceAssertions = 0 ∧ testCases.length > 3 then 10 else 0)

/-- `analyzeApiTestQuality`. -/
def analyzeApiTestQuality (testCases : List ApiTestCase) : QualityScore :=
  let completeness := analyzeApiCompleteness testCases
  let maintainability := analyzeApiMaintainability testCases
  let reliability := analyzeApiReliability testCases
  let coverage := analyzeApiCoverage testCases
  let performance := analyzeApiPerformance testCases
  { overall := roundHalfUp
      (completeness + maintainability + reliability + coverage + performance) 5
    categories :=
      { completeness := completeness
        maintainability := maintainability
        reliability := reliability
        coverage := coverage
        performance := performance } }

/-! ## Concrete sample inputs for witness and counterexample theorems -/

/-- Sample GUI options. -/
def sampleGuiOptions : GuiTestOptions :=
  { appUrl := "http://app.example", maxTestCases := none }

/-- Sample API options. -/
def sampleApiOptions : ApiTestOptions :=
  { baseUrl := "http://api.example", maxTestCases := none, discoveredAPIs := none,
    userJourney := none, includeSecurityTests := false, includePerformanceTests := false }

/-- A raw GUI case with the given identifying fields and an explicit
(possibly empty) `steps` array; everything else absent. -/
def mkSampleRawGui (id name priority category : String)
    (steps : Option (List RawStep)) : RawGuiTestCase :=
  { id := id, name := name, description := "", category := category,
    priority := priority, estimatedDuration := "", tags := none,
    prerequisites := none, testData := none, steps := steps,
    assertions := none, cleanup := none }

/-- A raw GUI case whose `steps` is the *empty* array. -/
def sampleEmptyStepsRaw : RawGuiTestCase :=
  mkSampleRawGui "tc-empty" "Empty steps case" "" "" (some [])

/-- A raw GUI case missing its `name`. -/
def sampleNamelessRaw : RawGuiTestCase :=
  mkSampleRawGui "tc-noname" "" "" "" (some [])

/-- A low-priority raw GUI case. -/
def sampleLowRaw : RawGuiTestCase := mkSampleRawGui "a" "Case A" "low" "" (some [])

/-- A critical-priority raw GUI case. -/
def sampleCriticalRaw : RawGuiTestCase := mkSampleRawGui "b" "Case B" "critical" "" (some [])

/-- A raw step whose action is `goto`. -/
def sampleRawGotoStep : RawStep :=
  { action := "goto", selector := "", value := "", options := none,
    description := "", waitFor := none, retry := none }

/-- A raw GUI case that already contains a `goto` step. -/
def sampleWithGotoRaw : RawGuiTestCase :=
  mkSampleRawGui "tc-goto" "Has goto" "" "" (some [sampleRawGotoStep])

/-- A validated GUI case in category `authentication`, priority `high`. -/
def sampleAuthCase : GuiTestCase :=
  { id := "auth", name := "Auth case", description := "", category := "authentication",
    priority := .high, estimatedDuration := "", tags := [], prerequisites := [],
    testData := ⟨false⟩, steps := [], assertions := [], cleanup := [] }

/-- A validated GUI case in category `form`, priority `high`. -/
def sampleFormCase : GuiTestCase :=
  { id := "form", name := "Form case", description := "", category := "form",
    priority := .high, estimatedDuration := "", tags := [], prerequisites := [],
    testData := ⟨false⟩, steps := [], assertions := [], cleanup := [] }

/-- A raw GUI assertion that explicitly sets `retry: false`. -/
def sampleRetryFalseAssertion : RawAssertion :=
  { type := "visible", selector := "", expected := .jbool true, description := "",
    timeout := none, retry := some false, operator := "" }

/-- A raw API case with the given fields, everything else absent. -/
def mkSampleRawApi (id name method endpoint : String) (expectedStatus : Option Nat)
    (assertions : Option (List RawApiAssertion)) : RawApiTestCase :=
  { id := id, name := name, description := "", category := "", priority := "",
    estimatedDuration := "", tags := none, prerequisites := none, dependencies := none,
    method := method, endpoint := endpoint, baseUrl := "", headers := none,
    body := false, expectedStatus := expectedStatus, assertions := assertions,
    dataSetup := none, dataCleanup := false, variableExtraction := false }

/-- A raw API assertion of type `status`. -/
def sampleStatusRawAssertion : RawApiAssertion :=
  { type := "status", path := "", operator := "", expected := .jnum 200,
    description := "", timeout := none }

/-- A raw API case with no `expectedStatus` and no assertions. -/
def sampleBareApiRaw : RawApiTestCase :=
  mkSampleRawApi "api-bare" "Bare" "post" "/things" none none

/-- A raw API case that already carries a status assertion. -/
def sampleStatusApiRaw : RawApiTestCase :=
  mkSampleRawApi "api-status" "Has status" "get" "/things" (some 200)
    (some [sampleStatusRawAssertion])

/-- A raw API case missing its `method`. -/
def sampleBadApiRaw : RawApiTestCase :=
  mkSampleRawApi "api-bad" "No method" "" "/things" none none

/-- A validated API case with id `api-1`. -/
def sampleApiCase : ApiTestCase :=
  { id := "api-1", name := "Api case", description := "", category := "crud",
    priority := .high, estimatedDuration := "", tags := [], prerequisites := [],
    dependencies := [], method := "GET", endpoint := "/things", baseUrl := "",
    headers := [], body := false, expectedStatus := 200, assertions := [],
    dataSetup := none, dataCleanup := false, variableExtraction := false }

/-! ## Facts about decimal printing and the id candidates -/

theorem toDigitsCore_append (b : Nat) :
    ∀ (f n : Nat) (l : List Char),
      Nat.toDigitsCore b f n l = Nat.toDigitsCore b f n [] ++ l := by
  intro f
  induction f with
  | zero => intro n l; simp [Nat.toDigitsCore]
  | succ f ih =>
    intro n l
    simp only [Nat.toDigitsCore]
    by_cases h : n / b = 0
    · simp [h]
    · simp only [h, if_false]
      rw [ih (n / b) (Nat.digitChar (n % b) :: l), ih (n / b) [Nat.digitChar (n % b)]]
      simp

theorem decListVal_snoc (l : List Char) (c : Char) :
    decListVal (l ++ [c]) = 10 * decListVal l + decDigitVal c := by
  simp [decListVal, List.foldl_append]

theorem decDigitVal_digitChar (n : Nat) (h : n < 10) :
    decDigitVal (Nat.digitChar n) = n := by
  interval_cases n <;> decide

theorem decListVal_toDigitsCore (n : Nat) :
    ∀ f, n < f → decListVal (Nat.toDigitsCore 10 f n []) = n := by
  induction n using Nat.strong_induction_on with
  | _ n ih =>
    intro f hf
    match f with
    | f + 1 =>
      simp only [Nat.toDigitsCore]
      by_cases h : n / 10 = 0
      · have hn : n < 10 := by omega
        have hmod : n % 10 = n := Nat.mod_eq_of_lt hn
        simp only [h, if_true]
        show decListVal [Nat.digitChar (n % 10)] = n
        simp only [decListVal, List.foldl]
        rw [hmod, decDigitVal_digitChar n hn]
        omega
      · simp only [h, if_false]
        rw [toDigitsCore_append 10 f (n / 10) [Nat.digitChar (n % 10)]]
        rw [decListVal_snoc]
        have hn : 0 < n := by
          rcases Nat.eq_zero_or_pos n with h0 | h0
          · subst h0; simp at h
          · exact h0
        have hlt : n / 10 < n := Nat.div_lt_self hn (by omega)
        rw [ih (n / 10) hlt f (by omega)]
        rw [decDigitVal_digitChar _ (Nat.mod_lt n (by omega))]
        omega

theorem decListVal_toDigits (n : Nat) : decListVal (Nat.toDigits 10 n) = n :=
  decListVal_toDigitsCore n (n + 1) (Nat.lt_succ_self n)

theorem natRepr_injective : Function.Injective Nat.repr := by
  intro m n h
  have hd : Nat.toDigits 10 m = Nat.toDigits 10 n := by
    have := congrArg String.data h
    simpa [Nat.repr, List.asString] using this
  have := congrArg decListVal hd
  rwa [decListVal_toDigits, decListVal_toDigits] at this

theorem natRepr_data_ne_nil (n : Nat) (hn : 1 ≤ n) : (Nat.repr n).data ≠ [] := by
  intro h
  have hd : Nat.toDigits 10 n = [] := by
    simpa [Nat.repr, List.asString] using h
  have := decListVal_toDigits n
  rw [hd] at this
  simp [decListVal] at this
  omega

theorem string_append_left_cancel {a b c : String} (h : a ++ b = a ++ c) : b = c := by
  have := congrArg String.data h
  simp only [String.data_append] at this
  exact String.ext (List.append_cancel_left this)

theorem suffixedId_inj (id : String) {m n : Nat}
    (h : suffixedId id m = suffixedId id n) : m = n := by
  unfold suffixedId at h
  exact natRepr_injective (string_append_left_cancel h)

theorem id_ne_suffixedId (id : String) (n : Nat) (hn : 1 ≤ n) :
    id ≠ suffixedId id n := by
  intro h
  have hlen := congrArg (fun s => s.data.length) h
  simp only [suffixedId, String.data_append, List.length_append] at hlen
  have hpos : 0 < (Nat.repr n).data.length :=
    List.length_pos.mpr (natRepr_data_ne_nil n hn)
  have : ("-" : String).data.length = 1 := rfl
  omega

theorem uniqueIdCandidate_injective (id : String) :
    Function.Injective (uniqueIdCandidate id) := by
  intro m n h
  unfold uniqueIdCandidate at h
  by_cases hm : m = 0 <;> by_cases hn : n = 0
  · omega
  · rw [if_pos hm, if_neg hn] at h
    exact absurd h (id_ne_suffixedId id n (by omega))
  · rw [if_neg hm, if_pos hn] at h
    exact absurd h.symm (id_ne_suffixedId id m (by omega))
  · rw [if_neg hm, if_neg hn] at h
    exact suffixedId_inj id h

/-! ## Behaviour of the id-uniquification loop -/

theorem uniqueIdLoop_succeeds (id : String) (ids : List String) :
    ∀ (fuel k : Nat), (∃ n, n < fuel ∧ uniqueIdCandidate id (k + n) ∉ ids) →
      ∃ n, n < fuel ∧
        uniqueIdLoop id ids k fuel = some (uniqueIdCandidate id (k + n)) ∧
        uniqueIdCandidate id (k + n) ∉ ids ∧
        ∀ m, m < n → uniqueIdCandidate id (k + m) ∈ ids := by
  intro fuel
  induction fuel with
  | zero =>
    rintro k ⟨n, hn, -⟩
    omega
  | succ fuel ih =>
    rintro k ⟨n, hn, hfree⟩
    by_cases hmem : uniqueIdCandidate id k ∈ ids
    · have hn0 : n ≠ 0 := by
        rintro rfl
        exact hfree (by simpa using hmem)
      obtain ⟨n', rfl⟩ : ∃ n', n = n' + 1 := ⟨n - 1, by omega⟩
      have hfree' : uniqueIdCandidate id ((k + 1) + n') ∉ ids := by
        have he : (k + 1) + n' = k + (n' + 1) := by omega
        rw [he]; exact hfree
      obtain ⟨m, hm, heq, hfreem, hall⟩ := ih (k + 1) ⟨n', by omega, hfree'⟩
      refine ⟨m + 1, by omega, ?_, ?_, ?_⟩
      · have he : k + (m + 1) = (k + 1) + m := by omega
        simp only [uniqueIdLoop, if_pos hmem]
        rw [heq, he]
      · have he : k + (m + 1) = (k + 1) + m := by omega
        rw [he]; exact hfreem
      · intro m' hm'
        cases m' with
        | zero => simpa using hmem
        | succ m'' =>
          have he : k + (m'' + 1) = (k + 1) + m'' := by omega
          rw [he]; exact hall m'' (by omega)
    · exact ⟨0, by omega, by simp [uniqueIdLoop, hmem], by simpa using hmem, by omega⟩

theorem exists_fresh_candidate (id : String) (ids : List String) :
    ∃ n, n ≤ ids.length ∧ uniqueIdCandidate id n ∉ ids := by
  by_contra h
  push_neg at h
  have hmap : ∀ i : Fin (ids.length + 1), uniqueIdCandidate id i.val ∈ ids.toFinset := by
    intro i
    rw [List.mem_toFinset]
    exact h i.val (by omega)
  have hcard : ids.toFinset.card < (Finset.univ : Finset (Fin (ids.length + 1))).card := by
    have := ids.toFinset_card_le
    simp only [Finset.card_univ, Fintype.card_fin]
    omega
  obtain ⟨i, -, j, -, hij, heq⟩ :=
    Finset.exists_ne_map_eq_of_card_lt_of_maps_to hcard (fun i _ => hmap i)
  exact hij (Fin.ext (uniqueIdCandidate_injective id heq))

/-- With fuel `|ids| + 1` the loop returns the first free candidate. -/
theorem uniqueIdLoop_full_spec (id : String) (ids : List String) :
    ∃ n, n ≤ ids.length ∧
      uniqueIdLoop id ids 0 (ids.length + 1) = some (uniqueIdCandidate id n) ∧
      uniqueIdCandidate id n ∉ ids ∧
      ∀ m, m < n → uniqueIdCandidate id m ∈ ids := by
  obtain ⟨n, hn, hfree⟩ := exists_fresh_candidate id ids
  obtain ⟨m, hm, heq, hfreem, hall⟩ :=
    uniqueIdLoop_succeeds id ids (ids.length + 1) 0
      ⟨n, by omega, by simpa using hfree⟩
  refine ⟨m, by omega, by simpa using heq, by simpa using hfreem, ?_⟩
  intro m' hm'
  simpa using hall m' hm'

/-- The value actually used by `ensureUniqueId`/`ensureUniqueApiId` is a
candidate that does not occur among the existing ids. -/
theorem uniqueIdLoop_getD_not_mem (id : String) (ids : List String) :
    (uniqueIdLoop id ids 0 (ids.length + 1)).getD id ∉ ids := by
  obtain ⟨n, -, heq, hfree, -⟩ := uniqueIdLoop_full_spec id ids
  rw [heq]
  simpa using hfree

theorem ensureUniqueId_not_mem (id : String) (existingTests : List GuiTestCase) :
    ensureUniqueId id existingTests ∉ existingTests.map (·.id) :=
  uniqueIdLoop_getD_not_mem id (existingTests.map (·.id))

theorem ensureUniqueApiId_not_mem (id : String) (existingTests : List ApiTestCase) :
    ensureUniqueApiId id existingTests ∉ existingTests.map (·.id) :=
  uniqueIdLoop_getD_not_mem id (existingTests.map (·.id))

/-! ## Behaviour of the validation loop -/

theorem validateLoopCore_saturated {ρ τ : Type} (maxTests : Nat) (accepted : ρ → Bool)
    (enhance : ρ → List τ → τ) (ts : List ρ) (acc : List τ)
    (h : maxTests ≤ acc.length) :
    validateLoopCore maxTests accepted enhance ts acc = acc := by
  cases ts with
  | nil => rfl
  | cons t ts => simp [validateLoopCore, Nat.not_lt.mpr h]

theorem validateLoopCore_skip {ρ τ : Type} (maxTests : Nat) (accepted : ρ → Bool)
    (enhance : ρ → List τ → τ) (t : ρ) (ht : accepted t = false) :
    ∀ (pre post : List ρ) (acc : List τ),
      validateLoopCore maxTests accepted enhance (pre ++ t :: post) acc =
        validateLoopCore maxTests accepted enhance (pre ++ post) acc := by
  intro pre
  induction pre with
  | nil =>
    intro post acc
    simp only [List.nil_append]
    by_cases hlt : acc.length < maxTests
    · simp [validateLoopCore, hlt, ht]
    · rw [validateLoopCore_saturated _ _ _ _ _ (by omega),
        validateLoopCore_saturated _ _ _ _ _ (by omega)]
  | cons p pre ih =>
    intro post acc
    simp only [List.cons_append, validateLoopCore]
    by_cases hlt : acc.length < maxTests
    · simp only [if_pos hlt]
      by_cases hacc : accepted p
      · simp only [hacc, if_true]
        exact ih post _
      · simp only [hacc, Bool.false_eq_true, if_false]
        exact ih post acc
    · simp [if_neg hlt]

theorem validateLoopCore_eq_pass {ρ τ : Type} (maxTests : Nat) (accepted : ρ → Bool)
    (enhance : ρ → List τ → τ) :
    ∀ (ts : List ρ) (acc : List τ), acc.length ≤ maxTests →
      validateLoopCore maxTests accepted enhance ts acc =
        enhancePass enhance ((ts.filter accepted).take (maxTests - acc.length)) acc := by
  intro ts
  induction ts with
  | nil =>
    intro acc h
    simp [validateLoopCore, enhancePass]
  | cons t ts ih =>
    intro acc h
    by_cases hlt : acc.length < maxTests
    · simp only [validateLoopCore, if_pos hlt]
      by_cases hacc : accepted t
      · rw [List.filter_cons]
        simp only [hacc, if_true]
        rw [show maxTests - acc.length = (maxTests - (acc.length + 1)) + 1 from by omega]
        rw [List.take_succ_cons]
        show validateLoopCore maxTests accepted enhance ts (acc ++ [enhance t acc]) = _
        rw [ih (acc ++ [enhance t acc]) (by simp; omega)]
        simp [enhancePass]
      · rw [List.filter_cons]
        simp only [hacc, Bool.false_eq_true, if_false]
        show validateLoopCore maxTests accepted enhance ts acc = _
        exact ih acc h
    · have heq : maxTests - acc.length = 0 := by omega
      rw [validateLoopCore_saturated _ _ _ _ _ (by omega), heq]
      simp [enhancePass]

theorem enhancePass_length {ρ τ : Type} (enhance : ρ → List τ → τ) :
    ∀ (l : List ρ) (acc : List τ),
      (enhancePass enhance l acc).length = acc.length + l.length := by
  intro l
  induction l with
  | nil => intro acc; simp [enhancePass]
  | cons t ts ih =>
    intro acc
    show (enhancePass enhance ts (acc ++ [enhance t acc])).length = _
    rw [ih]
    simp
    omega

theorem validateLoopCore_nodup {ρ τ : Type} (maxTests : Nat) (accepted : ρ → Bool)
    (enhance : ρ → List τ → τ) (key : τ → String)
    (hfresh : ∀ t acc, key (enhance t acc) ∉ acc.map key) :
    ∀ (ts : List ρ) (acc : List τ), (acc.map key).Nodup →
      ((validateLoopCore maxTests accepted enhance ts acc).map key).Nodup := by
  intro ts
  induction ts with
  | nil => intro acc h; exact h
  | cons t ts ih =>
    intro acc h
    simp only [validateLoopCore]
    by_cases hlt : acc.length < maxTests
    · simp only [if_pos hlt]
      by_cases hacc : accepted t
      · simp only [hacc, if_true]
        apply ih
        rw [List.map_append]
        refine List.Nodup.append h (List.nodup_singleton _) ?_
        intro a ha hb
        simp only [List.map_cons, List.map_nil, List.mem_singleton] at hb
        subst hb
        exact hfresh t acc ha
      · simp only [hacc, Bool.false_eq_true, if_false]
        exact ih acc h
    · simp only [if_neg hlt]
      exact h

theorem guiEnhance_id (o : GuiTestOptions) (t : RawGuiTestCase)
    (validated : List GuiTestCase) :
    (guiEnhance o t validated).id = ensureUniqueId t.id validated := by
  simp only [guiEnhance]
  split <;> rfl

theorem apiEnhance_id (o : ApiTestOptions) (t : RawApiTestCase)
    (validated : List ApiTestCase) :
    (apiEnhance o t validated).id = ensureUniqueApiId t.id validated := by
  simp only [apiEnhance]
  split <;> split <;> rfl

/-! ## Helper corollaries for ensureUniqueId -/

theorem uniqueId_getD_of_not_mem (id : String) (ids : List String) (h : id ∉ ids) :
    (uniqueIdLoop id ids 0 (ids.length + 1)).getD id = id := by
  have hcand : uniqueIdCandidate id 0 = id := rfl
  have : uniqueIdLoop id ids 0 (ids.length + 1) = some id := by
    simp [uniqueIdLoop, hcand, h]
  rw [this]
  rfl

theorem uniqueId_getD_of_mem (id : String) (ids : List String) (h : id ∈ ids) :
    ∃ n, 1 ≤ n ∧
      (uniqueIdLoop id ids 0 (ids.length + 1)).getD id = suffixedId id n ∧
      suffixedId id n ∉ ids ∧
      ∀ m, 1 ≤ m → m < n → suffixedId id m ∈ ids := by
  obtain ⟨n, -, heq, hfree, hall⟩ := uniqueIdLoop_full_spec id ids
  have hn0 : n ≠ 0 := by
    rintro rfl
    exact hfree (by simpa [uniqueIdCandidate] using h)
  refine ⟨n, by omega, ?_, ?_, ?_⟩
  · rw [heq]
    simp [uniqueIdCandidate, hn0]
  · simpa [uniqueIdCandidate, hn0] using hfree
  · intro m h1 hm
    have hmem := hall m hm
    have hm0 : m ≠ 0 := by omega
    unfold uniqueIdCandidate at hmem
    rwa [if_neg hm0] at hmem

/-- C1: `ensureUniqueId` returns the candidate unchanged when it is free,
otherwise the candidate suffixed with `-{n}` for the least `n ≥ 1` whose
result is free; consequently every collection produced by a full
validation pass (GUI or API) has pairwise distinct ids. -/
theorem C1_unique_ids :
    (∀ (id : String) (existingTests : List GuiTestCase),
      (id ∉ existingTests.map (·.id) → ensureUniqueId id existingTests = id) ∧
      (id ∈ existingTests.map (·.id) →
        ∃ n, 1 ≤ n ∧ ensureUniqueId id existingTests = suffixedId id n ∧
          suffixedId id n ∉ existingTests.map (·.id) ∧
          ∀ m, 1 ≤ m → m < n → suffixedId id m ∈ existingTests.map (·.id))) ∧
    (∀ (id : String) (existingTests : List ApiTestCase),
      (id ∉ existingTests.map (·.id) → ensureUniqueApiId id existingTests = id) ∧
      (id ∈ existingTests.map (·.id) →
        ∃ n, 1 ≤ n ∧ ensureUniqueApiId id existingTests = suffixedId id n ∧
          suffixedId id n ∉ existingTests.map (·.id) ∧
          ∀ m, 1 ≤ m → m < n → suffixedId id m ∈ existingTests.map (·.id))) ∧
    (∀ (testCases : List RawGuiTestCase) (o : GuiTestOptions),
      ((validateAndEnhanceTestCases testCases o).map (·.id)).Nodup) ∧
    (∀ (testCases : List RawApiTestCase) (o : ApiTestOptions),
      ((validateAndEnhanceApiTestCases testCases o).map (·.id)).Nodup) := by
  refine ⟨?_, ?_, ?_, ?_⟩
  · intro id existingTests
    exact ⟨uniqueId_getD_of_not_mem id _, uniqueId_getD_of_mem id _⟩
  · intro id existingTests
    exact ⟨uniqueId_getD_of_not_mem id _, uniqueId_getD_of_mem id _⟩
  · intro testCases o
    have hfresh : ∀ (t : RawGuiTestCase) (acc : List GuiTestCase),
        (guiEnhance o t acc).id ∉ acc.map (fun c => c.id) := by
      intro t acc
      rw [guiEnhance_id]
      exact ensureUniqueId_not_mem t.id acc
    have hnodup := validateLoopCore_nodup (guiMaxTests o) guiAccepted (guiEnhance o)
      (fun c => c.id) hfresh testCases [] (by simp)
    exact ((List.perm_insertionSort guiSortLE
      (guiValidateLoop o testCases [])).map (fun c => c.id)).nodup_iff.mpr hnodup
  · intro testCases o
    have hfresh : ∀ (t : RawApiTestCase) (acc : List ApiTestCase),
        (apiEnhance o t acc).id ∉ acc.map (fun c => c.id) := by
      intro t acc
      rw [apiEnhance_id]
      exact ensureUniqueApiId_not_mem t.id acc
    have hnodup := validateLoopCore_nodup (apiMaxTests o) apiAccepted (apiEnhance o)
      (fun c => c.id) hfresh testCases [] (by simp)
    exact ((List.perm_insertionSort apiSortLE
      (apiValidateLoop o testCases [])).map (fun c => c.id)).nodup_iff.mpr hnodup

theorem C1_unique_ids_witness :
    ("x" ∉ ([] : List GuiTestCase).map (·.id)) ∧ ensureUniqueId "x" [] = "x" ∧
    ("auth" ∈ [sampleAuthCase].map (·.id)) ∧
    (∃ n, 1 ≤ n ∧ ensureUniqueId "auth" [sampleAuthCase] = suffixedId "auth" n ∧
      suffixedId "auth" n ∉ [sampleAuthCase].map (·.id) ∧
      ∀ m, 1 ≤ m → m < n → suffixedId "auth" m ∈ [sampleAuthCase].map (·.id)) ∧
    ("y" ∉ ([] : List ApiTestCase).map (·.id)) ∧ ensureUniqueApiId "y" [] = "y" ∧
    ("api-1" ∈ [sampleApiCase].map (·.id)) ∧
    (∃ n, 1 ≤ n ∧ ensureUniqueApiId "api-1" [sampleApiCase] = suffixedId "api-1" n ∧
      suffixedId "api-1" n ∉ [sampleApiCase].map (·.id) ∧
      ∀ m, 1 ≤ m → m < n → suffixedId "api-1" m ∈ [sampleApiCase].map (·.id)) :=
  ⟨by decide, (C1_unique_ids.1 "x" []).1 (by decide),
   by decide, (C1_unique_ids.1 "auth" [sampleAuthCase]).2 (by decide),
   by decide, (C1_unique_ids.2.1 "y" []).1 (by decide),
   by decide, (C1_unique_ids.2.1 "api-1" [sampleApiCase]).2 (by decide)⟩

/-- C10: the id-uniquification while loop terminates within
`len(existing) + 1` iterations — running it with exactly that much fuel
already yields a result (`some`), for both `ensureUniqueId` and
`ensureUniqueApiId`. -/
theorem C10_uniqueid_termination :
    ∀ (id : String) (guiTests : List GuiTestCase) (apiTests : List ApiTestCase),
      (∃ s, uniqueIdLoop id (guiTests.map (·.id)) 0 (guiTests.length + 1) = some s ∧
        ensureUniqueId id guiTests = s) ∧
      (∃ s, uniqueIdLoop id (apiTests.map (·.id)) 0 (apiTests.length + 1) = some s ∧
        ensureUniqueApiId id apiTests = s) := by
  intro id guiTests apiTests
  constructor
  · obtain ⟨n, -, heq, -, -⟩ := uniqueIdLoop_full_spec id (guiTests.map (·.id))
    refine ⟨uniqueIdCandidate id n, ?_, ?_⟩
    · rw [← heq]
      congr 1
      simp
    · show (uniqueIdLoop id (guiTests.map (·.id)) 0 ((guiTests.map (·.id)).length + 1)).getD id = _
      rw [heq]
      rfl
  · obtain ⟨n, -, heq, -, -⟩ := uniqueIdLoop_full_spec id (apiTests.map (·.id))
    refine ⟨uniqueIdCandidate id n, ?_, ?_⟩
    · rw [← heq]
      congr 1
      simp
    · show (uniqueIdLoop id (apiTests.map (·.id)) 0 ((apiTests.map (·.id)).length + 1)).getD id = _
      rw [heq]
      rfl

/-- C2 counterexample: a GUI element whose `steps` is the empty array is
*not* skipped — it is validated and appears in the output (the check
`!testCase.steps || !Array.isArray(testCase.steps)` accepts `[]`, which
is truthy in JS). -/
theorem C2_counterexample :
    sampleEmptyStepsRaw.steps = some [] ∧
    (validateAndEnhanceTestCases [sampleEmptyStepsRaw] sampleGuiOptions).map (·.id) =
      ["tc-empty"] := by
  constructor
  · rfl
  · decide

/-- C2 (amended): the GUI validator skips exactly the elements lacking a
truthy `id`, a truthy `name` or an array `steps` (an *empty* steps array
is accepted), and the API validator skips exactly the elements lacking
`id`, `name`, `method` or `endpoint`: removing such an element from the
input leaves the validation pass unchanged. -/
theorem C2_amended_rejects :
    (∀ (o : GuiTestOptions) (pre post : List RawGuiTestCase) (t : RawGuiTestCase)
        (validated : List GuiTestCase),
      (t.id = "" ∨ t.name = "" ∨ t.steps = none) →
        guiValidateLoop o (pre ++ t :: post) validated =
          guiValidateLoop o (pre ++ post) validated) ∧
    (∀ (o : ApiTestOptions) (pre post : List RawApiTestCase) (t : RawApiTestCase)
        (validated : List ApiTestCase),
      (t.id = "" ∨ t.name = "" ∨ t.method = "" ∨ t.endpoint = "") →
        apiValidateLoop o (pre ++ t :: post) validated =
          apiValidateLoop o (pre ++ post) validated) := by
  constructor
  · intro o pre post t validated h
    apply validateLoopCore_skip
    unfold guiAccepted
    rcases h with h | h | h <;> simp [h]
  · intro o pre post t validated h
    apply validateLoopCore_skip
    unfold apiAccepted
    rcases h with h | h | h | h <;> simp [h]

theorem C2_amended_rejects_witness :
    sampleNamelessRaw.name = "" ∧
    guiValidateLoop sampleGuiOptions [sampleNamelessRaw, sampleEmptyStepsRaw] [] =
      guiValidateLoop sampleGuiOptions [sampleEmptyStepsRaw] [] ∧
    sampleBadApiRaw.method = "" ∧
    apiValidateLoop sampleApiOptions [sampleBadApiRaw] [] =
      apiValidateLoop sampleApiOptions [] [] :=
  ⟨rfl,
   C2_amended_rejects.1 sampleGuiOptions [] [sampleEmptyStepsRaw] sampleNamelessRaw []
     (Or.inr (Or.inl rfl)),
   rfl,
   C2_amended_rejects.2 sampleApiOptions [] [] sampleBadApiRaw []
     (Or.inr (Or.inr (Or.inl rfl)))⟩

/-- C3 counterexample: the output is *not* in input order — the final
prioritization reorders it.  Here both elements are accepted, so the
claim says the first output element is the normalization of the first
input element, but the critical-priority second case is sorted in front
of it. -/
theorem C3_counterexample :
    (validateAndEnhanceTestCases [sampleLowRaw, sampleCriticalRaw]
        sampleGuiOptions).head? ≠
      some (guiEnhance sampleGuiOptions sampleLowRaw []) := by
  decide

/-- C3 (amended): the validators accept elements in input order, truncate
to the first `maxTestCases` accepted elements (default 25 GUI / 30 API),
normalize each against the cases validated before it, and only then apply
the final stable prioritization sort; the pass before sorting never
exceeds `maxTestCases` cases. -/
theorem C3_amended_truncate_then_sort :
    (∀ (testCases : List RawGuiTestCase) (o : GuiTestOptions),
      validateAndEnhanceTestCases testCases o =
        prioritizeTestCases
          (enhancePass (guiEnhance o)
            ((testCases.filter guiAccepted).take (guiMaxTests o)) []) ∧
      (guiValidateLoop o testCases []).length ≤ guiMaxTests o) ∧
    (∀ (testCases : List RawApiTestCase) (o : ApiTestOptions),
      validateAndEnhanceApiTestCases testCases o =
        prioritizeApiTestCases
          (enhancePass (apiEnhance o)
            ((testCases.filter apiAccepted).take (apiMaxTests o)) []) ∧
      (apiValidateLoop o testCases []).length ≤ apiMaxTests o) := by
  constructor
  · intro testCases o
    have hpass := validateLoopCore_eq_pass (guiMaxTests o) guiAccepted (guiEnhance o)
      testCases [] (by simp)
    have hloop : guiValidateLoop o testCases [] =
        enhancePass (guiEnhance o)
          ((testCases.filter guiAccepted).take (guiMaxTests o)) [] := by
      simpa using hpass
    constructor
    · show prioritizeTestCases (guiValidateLoop o testCases []) = _
      rw [hloop]
    · rw [hloop, enhancePass_length]
      simp [List.length_take]
  · intro testCases o
    have hpass := validateLoopCore_eq_pass (apiMaxTests o) apiAccepted (apiEnhance o)
      testCases [] (by simp)
    have hloop : apiValidateLoop o testCases [] =
        enhancePass (apiEnhance o)
          ((testCases.filter apiAccepted).take (apiMaxTests o)) [] := by
      simpa using hpass
    constructor
    · show prioritizeApiTestCases (apiValidateLoop o testCases []) = _
      rw [hloop]
    · rw [hloop, enhancePass_length]
      simp [List.length_take]

/-- C4: the code contradicts the claimed rank table.  Because
`categoryOrder[a.category] || 5` (resp. `|| 6`) treats the looked-up rank
`0` as falsy, `authentication` gets the *default* rank, so among two
equal-priority cases the `form` case (rank 1) is ordered *before* the
`authentication` case — the opposite of the claimed order. -/
theorem C4_category_rank_eval :
    guiCategoryOrderLookup "authentication" = some 0 ∧
    guiCategoryRank "authentication" = 5 ∧
    guiCategoryRank "form" = 1 ∧
    apiCategoryOrderLookup "authentication" = some 0 ∧
    apiCategoryRank "authentication" = 6 ∧
    sampleAuthCase.priority = sampleFormCase.priority ∧
    (prioritizeTestCases [sampleAuthCase, sampleFormCase]).map (·.category) =
      ["form", "authentication"] := by
  decide

/-- C5: when no validated step of an accepted GUI case is a `goto`,
exactly one synthesized `goto` step (with `value = appUrl`) is prepended
as the new first step; a case whose validated steps already contain a
`goto` is left unchanged. -/
theorem C5_goto_synthesis :
    ∀ (o : GuiTestOptions) (t : RawGuiTestCase) (validated : List GuiTestCase),
      ((validateSteps (t.steps.getD []) o.appUrl).any
          (fun s => decide (s.action = GuiAction.goto)) = false →
        (guiEnhance o t validated).steps =
          mkSynthGoto o.appUrl :: validateSteps (t.steps.getD []) o.appUrl ∧
        (mkSynthGoto o.appUrl).action = GuiAction.goto ∧
        (mkSynthGoto o.appUrl).value = o.appUrl) ∧
      ((validateSteps (t.steps.getD []) o.appUrl).any
          (fun s => decide (s.action = GuiAction.goto)) = true →
        (guiEnhance o t validated).steps =
          validateSteps (t.steps.getD []) o.appUrl) := by
  intro o t validated
  constructor
  · intro h
    refine ⟨?_, rfl, rfl⟩
    simp only [guiEnhance, h]
    rfl
  · intro h
    simp only [guiEnhance, h]
    rfl

theorem C5_goto_synthesis_witness :
    ((validateSteps (sampleEmptyStepsRaw.steps.getD []) sampleGuiOptions.appUrl).any
        (fun s => decide (s.action = GuiAction.goto)) = false) ∧
    (guiEnhance sampleGuiOptions sampleEmptyStepsRaw []).steps =
      mkSynthGoto sampleGuiOptions.appUrl ::
        validateSteps (sampleEmptyStepsRaw.steps.getD []) sampleGuiOptions.appUrl ∧
    ((validateSteps (sampleWithGotoRaw.steps.getD []) sampleGuiOptions.appUrl).any
        (fun s => decide (s.action = GuiAction.goto)) = true) ∧
    (guiEnhance sampleGuiOptions sampleWithGotoRaw []).steps =
      validateSteps (sampleWithGotoRaw.steps.getD []) sampleGuiOptions.appUrl :=
  ⟨by decide,
   ((C5_goto_synthesis sampleGuiOptions sampleEmptyStepsRaw []).1 (by decide)).1,
   by decide,
   (C5_goto_synthesis sampleGuiOptions sampleWithGotoRaw []).2 (by decide)⟩

/-- C6: a missing `expectedStatus` is defaulted by method (`POST` → 201,
`DELETE` → 204, otherwise 200), and when the validated assertions contain
no `status` assertion, one with `expected` equal to the case's
`expectedStatus` is prepended as the first assertion, the others keeping
their order. -/
theorem C6_status_defaulting :
    ∀ (o : ApiTestOptions) (t : RawApiTestCase) (validated : List ApiTestCase),
      (t.expectedStatus = none →
        (apiEnhance o t validated).expectedStatus = getDefaultStatus t.method) ∧
      (∀ method : String, strUpper method = "POST" → getDefaultStatus method = 201) ∧
      (∀ method : String, strUpper method = "DELETE" → getDefaultStatus method = 204) ∧
      (∀ method : String, strUpper method ≠ "POST" → strUpper method ≠ "DELETE" →
        getDefaultStatus method = 200) ∧
      ((validateApiAssertions (t.assertions.getD [])).any
          (fun a => decide (a.type = ApiAssertType.status)) = false →
        (apiEnhance o t validated).assertions =
          mkStatusAssertion (apiEnhance o t validated).expectedStatus ::
            validateApiAssertions (t.assertions.getD []) ∧
        (mkStatusAssertion (apiEnhance o t validated).expectedStatus).expected =
          JVal.jnum (apiEnhance o t validated).expectedStatus) ∧
      ((validateApiAssertions (t.assertions.getD [])).any
          (fun a => decide (a.type = ApiAssertType.status)) = true →
        (apiEnhance o t validated).assertions =
          validateApiAssertions (t.assertions.getD [])) := by
  intro o t validated
  have hexp : (apiEnhance o t validated).expectedStatus =
      jsOrNat t.expectedStatus (getDefaultStatus t.method) := by
    simp only [apiEnhance]
    split <;> split <;> rfl
  have hassert : (apiEnhance o t validated).assertions =
      (if (validateApiAssertions (t.assertions.getD [])).any
            (fun a => decide (a.type = ApiAssertType.status)) then
        validateApiAssertions (t.assertions.getD [])
      else
        mkStatusAssertion (jsOrNat t.expectedStatus (getDefaultStatus t.method)) ::
          validateApiAssertions (t.assertions.getD [])) := by
    by_cases h2 : (validateApiAssertions (t.assertions.getD [])).any
        (fun a => decide (a.type = ApiAssertType.status)) = true
    all_goals by_cases h1 : (strUpper t.method = "POST" ∨ strUpper t.method = "PUT" ∨
        strUpper t.method = "PATCH") ∧ t.body = true
    all_goals simp [apiEnhance, h1, h2]
  refine ⟨?_, ?_, ?_, ?_, ?_, ?_⟩
  · intro h
    rw [hexp, h]
    rfl
  · intro method h
    simp [getDefaultStatus, h]
  · intro method h
    simp [getDefaultStatus, h]
  · intro method h1 h2
    simp [getDefaultStatus, h1, h2]
  · intro h
    refine ⟨?_, rfl⟩
    rw [hassert, hexp, if_neg]
    rw [h]
    simp
  · intro h
    rw [hassert, if_pos h]

theorem C6_status_defaulting_witness :
    sampleBareApiRaw.expectedStatus = none ∧
    (apiEnhance sampleApiOptions sampleBareApiRaw []).expectedStatus =
      getDefaultStatus sampleBareApiRaw.method ∧
    strUpper "post" = "POST" ∧ getDefaultStatus "post" = 201 ∧
    strUpper "delete" = "DELETE" ∧ getDefaultStatus "delete" = 204 ∧
    (strUpper "get" ≠ "POST") ∧ (strUpper "get" ≠ "DELETE") ∧
    getDefaultStatus "get" = 200 ∧
    ((validateApiAssertions (sampleBareApiRaw.assertions.getD [])).any
        (fun a => decide (a.type = ApiAssertType.status)) = false) ∧
    (apiEnhance sampleApiOptions sampleBareApiRaw []).assertions =
      mkStatusAssertion (apiEnhance sampleApiOptions sampleBareApiRaw []).expectedStatus ::
        validateApiAssertions (sampleBareApiRaw.assertions.getD []) ∧
    ((validateApiAssertions (sampleStatusApiRaw.assertions.getD [])).any
        (fun a => decide (a.type = ApiAssertType.status)) = true) ∧
    (apiEnhance sampleApiOptions sampleStatusApiRaw []).assertions =
      validateApiAssertions (sampleStatusApiRaw.assertions.getD []) :=
  ⟨rfl,
   (C6_status_defaulting sampleApiOptions sampleBareApiRaw []).1 rfl,
   by decide,
   (C6_status_defaulting sampleApiOptions sampleBareApiRaw []).2.1 "post" (by decide),
   by decide,
   (C6_status_defaulting sampleApiOptions sampleBareApiRaw []).2.2.1 "delete" (by decide),
   by decide, by decide,
   (C6_status_defaulting sampleApiOptions sampleBareApiRaw []).2.2.2.1 "get"
     (by decide) (by decide),
   by decide,
   ((C6_status_defaulting sampleApiOptions sampleBareApiRaw []).2.2.2.2.1 (by decide)).1,
   by decide,
   (C6_status_defaulting sampleApiOptions sampleStatusApiRaw []).2.2.2.2.2 (by decide)⟩

/-- C7: the code contradicts the claim that a supplied `retry: false` is
preserved — `retry: assertion.retry || true` evaluates to `true` for
*every* input, so an explicit `false` is overwritten. -/
theorem C7_retry_clobbered_eval :
    sampleRetryFalseAssertion.retry = some false ∧
    (validateAssertions [sampleRetryFalseAssertion]).map (·.retry) = [true] ∧
    (∀ (a : RawAssertion), jsOrBool a.retry true = true) := by
  refine ⟨rfl, by decide, ?_⟩
  intro a
  unfold jsOrBool
  cases a.retry with
  | none => rfl
  | some b => simp

/-- C8: for every input collection, each of the five category scores and
the overall score lies in `[0, 100]` (they are naturals, so the lower
bound is inherent), and the overall score is the half-up rounded
arithmetic mean of the five category scores. -/
theorem C8_quality_bounds :
    ∀ (guiTests : List GuiTestCase) (apiTests : List ApiTestCase),
      ((analyzeGuiTestQuality guiTests).categories.completeness ≤ 100 ∧
       (analyzeGuiTestQuality guiTests).categories.maintainability ≤ 100 ∧
       (analyzeGuiTestQuality guiTests).categories.reliability ≤ 100 ∧
       (analyzeGuiTestQuality guiTests).categories.coverage ≤ 100 ∧
       (analyzeGuiTestQuality guiTests).categories.performance ≤ 100 ∧
       (analyzeGuiTestQuality guiTests).overall ≤ 100 ∧
       (analyzeGuiTestQuality guiTests).overall =
         roundHalfUp ((analyzeGuiTestQuality guiTests).categories.completeness +
           (analyzeGuiTestQuality guiTests).categories.maintainability +
           (analyzeGuiTestQuality guiTests).categories.reliability +
           (analyzeGuiTestQuality guiTests).categories.coverage +
           (analyzeGuiTestQuality guiTests).categories.performance) 5) ∧
      ((analyzeApiTestQuality apiTests).categories.completeness ≤ 100 ∧
       (analyzeApiTestQuality apiTests).categories.maintainability ≤ 100 ∧
       (analyzeApiTestQuality apiTests).categories.reliability ≤ 100 ∧
       (analyzeApiTestQuality apiTests).categories.coverage ≤ 100 ∧
       (analyzeApiTestQuality apiTests).categories.performance ≤ 100 ∧
       (analyzeApiTestQuality apiTests).overall ≤ 100 ∧
       (analyzeApiTestQuality apiTests).overall =
         roundHalfUp ((analyzeApiTestQuality apiTests).categories.completeness +
           (analyzeApiTestQuality apiTests).categories.maintainability +
           (analyzeApiTestQuality apiTests).categories.reliability +
           (analyzeApiTestQuality apiTests).categories.coverage +
           (analyzeApiTestQuality apiTests).categories.performance) 5) := by
  intro guiTests apiTests
  constructor
  · have h1 : analyzeGuiCompleteness guiTests ≤ 100 := Nat.sub_le _ _
    have h2 : analyzeGuiMaintainability guiTests ≤ 100 := Nat.sub_le _ _
    have h3 : analyzeGuiReliability guiTests ≤ 100 := Nat.sub_le _ _
    have h4 : analyzeGuiCoverage guiTests ≤ 100 := Nat.min_le_left _ _
    have h5 : analyzeGuiPerformance guiTests ≤ 100 := Nat.sub_le _ _
    have hov : (analyzeGuiTestQuality guiTests).overall =
        roundHalfUp (analyzeGuiCompleteness guiTests + analyzeGuiMaintainability guiTests +
          analyzeGuiReliability guiTests + analyzeGuiCoverage guiTests +
          analyzeGuiPerformance guiTests) 5 := rfl
    refine ⟨h1, h2, h3, h4, h5, ?_, rfl⟩
    rw [hov]
    unfold roundHalfUp
    omega
  · have h1 : analyzeApiCompleteness apiTests ≤ 100 := Nat.sub_le _ _
    have h2 : analyzeApiMaintainability apiTests ≤ 100 := Nat.sub_le _ _
    have h3 : analyzeApiReliability apiTests ≤ 100 := Nat.sub_le _ _
    have h4 : analyzeApiCoverage apiTests ≤ 100 := Nat.min_le_left _ _
    have h5 : analyzeApiPerformance apiTests ≤ 100 := Nat.sub_le _ _
    have hov : (analyzeApiTestQuality apiTests).overall =
        roundHalfUp (analyzeApiCompleteness apiTests + analyzeApiMaintainability apiTests +
          analyzeApiReliability apiTests + analyzeApiCoverage apiTests +
          analyzeApiPerformance apiTests) 5 := rfl
    refine ⟨h1, h2, h3, h4, h5, ?_, rfl⟩
    rw [hov]
    unfold roundHalfUp
    omega

/-- C9: a non-array top-level LLM response (any non-array value, e.g. the
object form carried by `LLMTop.nonArray`) makes both generators return
the deterministic fallback suite built from the structural facts, never
an exception; the GUI fallback suite is in addition always non-empty
(it always contains the basic page-load test). -/
theorem C9_nonarray_fallback :
    (∀ (pageInfo : PageInfo) (o : GuiTestOptions) (printed : String),
      generateGuiTestCases pageInfo o (.nonArray printed) =
        generateFallbackTests pageInfo o ∧
      generateGuiTestCases pageInfo o (.nonArray printed) ≠ []) ∧
    (∀ (o : ApiTestOptions) (printed : String),
      generateApiTestCases o (.nonArray printed) = generateFallbackApiTests o) := by
  constructor
  · intro pageInfo o printed
    refine ⟨rfl, ?_⟩
    show generateFallbackTests pageInfo o ≠ []
    unfold generateFallbackTests
    simp
  · intro o printed
    rfl
